import Mathlib

/-!
Shallow embedding of the sharpie warship design model (src/src/lib.rs).

The repository declares modules `hull`, `armor`, `engine`, `weapons`,
`weights` and `units` in lib.rs, but their source files are not part of the
repository snapshot; following the specification (§2-§4) the quantities
lib.rs pulls from them are modelled as parameters carried on the
corresponding records, while every function of lib.rs itself is transcribed
directly.  Rust `f64` arithmetic is modelled over ℝ; real division by zero
follows the Lean convention `x / 0 = 0` (an IEEE double would give ±inf/NaN
at such a point - no theorem in this file is settled at such a point);
`u32`/`u8` are modelled by ℕ with truncated subtraction.
-/

namespace Sharpie

/-- Modelled from the spec (§4.1 Hull Geometry): the hull module is missing
from the snapshot; the hull quantities that lib.rs pulls from it
(`d()`, `lwl()`, `leff()`, `cs()`, `ws()`, `wp()`, `cwp()`, the stored
dimensions `b`, `bb`, `t`, `freeboard()`, `freeboard_dist()`, `len2beam()`
and `free_cap(bool)`) are carried as parameters of the record. -/
structure Hull where
  d : ℝ
  lwl : ℝ
  leff : ℝ
  cs : ℝ
  ws : ℝ
  wp : ℝ
  cwp : ℝ
  b : ℝ
  bb : ℝ
  t : ℝ
  freeboard : ℝ
  freeboard_dist : ℝ
  len2beam : ℝ
  free_cap : Bool → ℝ

/-- Modelled from the spec (§4.4): the "fixed cubic-feet-per-ton-of-seawater
constant" `Hull::FT3_PER_TON_SEA` of the missing hull module; 35 cubic feet
per long ton of seawater is the standard naval-architecture figure.  No
theorem below depends on its value. -/
def FT3_PER_TON_SEA : ℝ := 35

/-- Pounds in a long ton (`Ship::POUND2TON`, lib.rs line 134). -/
def POUND2TON : ℝ := 2240.0

/-- Modelled from the spec (§4.2): a belt/bulkhead/bulge armor section of the
missing armor module; its weight is a function of a hull length figure, the
waterplane coefficient and the beam, exactly the shape of the call sites
`section.wgt(lwl-or-d, cwp, b)` in lib.rs. -/
structure ArmorSection where
  wgt : ℝ → ℝ → ℝ → ℝ

/-- Modelled from the spec (§4.2): a conning-tower section; lib.rs calls
`ct.wgt(hull.d())`. -/
structure CtSection where
  wgt : ℝ → ℝ

/-- Modelled from the spec (§4.2): the deck armor section; lib.rs calls
`deck.wgt(hull, wgt_mag, engine-weight-pinned-to-zero)`. -/
structure DeckSection where
  wgt : Hull → ℝ → ℝ → ℝ

/-- Torpedo-bulkhead kind (armor module enum used by lib.rs). -/
inductive BulkheadType
  | Strengthened
  | Additional
  deriving DecidableEq

/-- Modelled from the spec (§4.2 Armor Model): the armor record as used by
lib.rs; `wgt` is the whole-scheme weight `armor.wgt(hull, mag, engine)`. -/
structure Armor where
  main : ArmorSection
  end_ : ArmorSection
  upper : ArmorSection
  bulkhead : ArmorSection
  bulge : ArmorSection
  ct_fwd : CtSection
  ct_aft : CtSection
  deck : DeckSection
  wgt : Hull → ℝ → ℝ → ℝ
  bh_kind : BulkheadType
  bh_beam : ℝ

/-- Modelled from the spec (§4.3 Propulsion Model): the engine module is
missing from the snapshot; the outputs lib.rs pulls from it are carried as
functions of the hull figures they are called with. -/
structure Engine where
  vmax : ℝ
  bunker : ℝ → ℝ → ℝ → ℝ → ℝ → ℝ
  d_engine : ℝ → ℝ → ℝ → ℝ → ℝ → ℝ
  hp_max : ℝ → ℝ → ℝ → ℝ → ℝ → ℝ
  rf_max : ℝ → ℝ
  rw_max : ℝ → ℝ → ℝ → ℝ

/-- Modelled from the spec (§4.4): one firing group of a battery; lib.rs
reads `num_mounts()`, membership of the distribution in
{CenterlineEven, SidesEven} (`dist_even`), the distribution's
`super_factor_long()` flag (`dist_sfl`) and the group's gun-position
fraction at the fixed arguments `(hull.fd_len, hull.ad_len())` (`pos`). -/
structure GunGroup where
  num_mounts : ℕ
  dist_even : Bool
  dist_sfl : Bool
  pos : ℝ

/-- Modelled from the spec (§4.4 Weapons Model): a gun battery; the per-battery
quantities lib.rs pulls from the missing weapons module are carried as
parameters (`mount_adj` is `mount_kind.wgt_adj()`, `super_` is
`b.super_(hull)`, `concentration` is `b.concentration(wgt_broad)`). -/
structure Battery where
  diam : ℝ
  mount_num : ℕ
  gun_wgt : ℝ
  mount_wgt : ℝ
  mag_wgt : ℝ
  armor_wgt : Hull → ℝ
  broadside_wgt : ℝ
  mount_adj : ℝ
  super_ : Hull → ℝ
  concentration : ℝ → ℝ
  broad_and_below : Bool
  g0 : GunGroup
  g1 : GunGroup

/-- Modelled from the spec (§4.4): a torpedo mount record as read by lib.rs. -/
structure Torpedoes where
  num : ℕ
  wgt : ℝ
  wgt_weaps : ℝ
  deck_space : ℝ → ℝ
  hull_space : ℝ

/-- Modelled from the spec (§4.4): the mines record as read by lib.rs. -/
structure Mines where
  wgt : ℝ

/-- Modelled from the spec (§4.4): an anti-submarine-warfare record as read by
lib.rs. -/
structure ASW where
  wgt : ℝ

/-- Modelled from the spec (§3): named miscellaneous weight allowances as
non-negative integers.  The Rust field `on` is rendered `on_` (reserved word
in Lean). -/
structure MiscWgts where
  vital : ℕ
  hull : ℕ
  on_ : ℕ
  above : ℕ
  void : ℕ

/-- Modelled from the spec (§3): total of the miscellaneous weight allowances
(`wgts.wgt()` of the missing weights module). -/
def MiscWgts.wgt (w : MiscWgts) : ℕ :=
  w.vital + w.hull + w.on_ + w.above + w.void

instance : Inhabited GunGroup :=
  ⟨⟨0, false, false, 0⟩⟩

instance : Inhabited Battery :=
  ⟨⟨0, 0, 0, 0, 0, fun _ => 0, 0, 0, fun _ => 0, fun _ => 0, false,
    default, default⟩⟩

/-- The Ship record (lib.rs lines 65-100). -/
structure Ship where
  name : String
  country : String
  kind : String
  year : ℕ
  trim : ℕ
  hull : Hull
  armor : Armor
  engine : Engine
  batteries : List Battery
  torps : List Torpedoes
  mines : Mines
  asw : List ASW
  wgts : MiscWgts
  notes : List String

/-- Levels of seakeeping ability (lib.rs lines 2324-2336). -/
inductive SeaType
  | BadSea
  | PoorSea
  | FineSea
  | GoodSea
  | Error
  deriving DecidableEq

/-- Year adjustment factor (lib.rs lines 139-143).  `(1890 - year)` is u32
subtraction, modelled by truncated ℕ subtraction (no underflow occurs: the
branch requires `year ≤ 1890`). -/
noncomputable def year_adj (year : ℕ) : ℝ :=
  if year ≤ 1890 then 1.0 - ((1890 - year : ℕ) : ℝ) / 66.666664
  else if year ≤ 1950 then 1.0
  else 0.0

namespace Ship

/-- Relative deck space used by above-water torpedoes (lib.rs lines 149-156). -/
noncomputable def deck_space (s : Ship) : ℝ :=
  (s.torps.map (fun w => w.deck_space s.hull.b)).sum / s.hull.wp

/-- Proportional hull space used by hull-mounted torpedoes
(lib.rs lines 165-171). -/
noncomputable def hull_space (s : Ship) : ℝ :=
  (s.torps.map (fun w => w.hull_space)).sum / (s.hull.d * FT3_PER_TON_SEA)

/-- Bunkerage weight from the engine (lib.rs lines 176-184). -/
noncomputable def wgt_bunker (s : Ship) : ℝ :=
  s.engine.bunker s.hull.d s.hull.lwl s.hull.leff s.hull.cs s.hull.ws

/-- Weight of the ship's magazines (lib.rs lines 862-868). -/
noncomputable def wgt_mag (s : Ship) : ℝ :=
  (s.batteries.map (fun b => b.mag_wgt)).sum

/-- Weight of bunkerage, magazine and stores (lib.rs lines 189-191). -/
noncomputable def wgt_load (s : Ship) : ℝ :=
  s.hull.d * 0.02 + s.wgt_bunker + s.wgt_mag

/-- Light displacement (lib.rs lines 197-199). -/
noncomputable def d_lite (s : Ship) : ℝ :=
  s.hull.d - s.wgt_load

/-- Standard displacement (lib.rs lines 206-208). -/
noncomputable def d_std (s : Ship) : ℝ :=
  s.hull.d - s.wgt_bunker

/-- Maximum displacement (lib.rs lines 214-216). -/
noncomputable def d_max (s : Ship) : ℝ :=
  s.hull.d + 0.8 * s.wgt_bunker

/-- Estimated maximum crew size (lib.rs lines 235-237); the `as u32` cast of
a non-negative f64 truncates toward zero, modelled by `Int.floor`/`toNat`. -/
noncomputable def crew_max (s : Ship) : ℕ :=
  (⌊s.hull.d ^ (0.75 : ℝ) * 0.65⌋).toNat

/-- Estimated minimum crew size (lib.rs lines 242-244). -/
noncomputable def crew_min (s : Ship) : ℕ :=
  (⌊(s.crew_max : ℝ) * 0.7692⌋).toNat

/-- Sum of the broadside weights of all batteries (lib.rs lines 873-879). -/
noncomputable def wgt_broad (s : Ship) : ℝ :=
  (s.batteries.map (fun b => b.broadside_wgt)).sum

/-- Weight of guns excluding mounts (lib.rs lines 829-835). -/
noncomputable def wgt_guns (s : Ship) : ℝ :=
  (s.batteries.map (fun b => b.gun_wgt)).sum

/-- Weight of gun mounts (lib.rs lines 840-846). -/
noncomputable def wgt_gun_mounts (s : Ship) : ℝ :=
  (s.batteries.map (fun b => b.mount_wgt)).sum

/-- Weight of gun mount armor (lib.rs lines 851-857). -/
noncomputable def wgt_gun_armor (s : Ship) : ℝ :=
  (s.batteries.map (fun b => b.armor_wgt s.hull)).sum

/-- Borne (trainable) gun weight (lib.rs lines 806-812). -/
noncomputable def wgt_borne (s : Ship) : ℝ :=
  (s.batteries.map (fun b => b.gun_wgt * b.mount_adj)).sum * 2.0

/-- Weight of torpedoes, mines and ASW weapons (lib.rs lines 817-824). -/
noncomputable def wgt_weaps (s : Ship) : ℝ :=
  (s.torps.map (fun w => w.wgt)).sum + (s.asw.map (fun w => w.wgt)).sum +
    s.mines.wgt

/-- Weight of ship and battery armor (lib.rs lines 884-888); the engine-weight
argument of `armor.wgt` is pinned to zero in the source (documented circular
reference break). -/
noncomputable def wgt_armor (s : Ship) : ℝ :=
  s.armor.wgt s.hull s.wgt_mag 0.0 + s.wgt_gun_armor

/-- Superfired gun weight figure (lib.rs lines 893-906); batteries with
`diam == 0` are skipped. -/
noncomputable def gun_wtf (s : Ship) : ℝ :=
  (s.batteries.map (fun b =>
    if b.diam = 0 then 0
    else (b.gun_wgt + b.mount_wgt + b.armor_wgt s.hull) * b.super_ s.hull *
      b.mount_adj)).sum

/-- Gun superfiring factor (lib.rs lines 911-913). -/
noncomputable def gun_super_factor (s : Ship) : ℝ :=
  s.gun_wtf / (s.wgt_gun_armor + s.wgt_guns + s.wgt_gun_mounts)

/-- Per-battery concentration total (lib.rs lines 684-690). -/
noncomputable def gun_concentration (s : Ship) : ℝ :=
  (s.batteries.map (fun b => b.concentration s.wgt_broad)).sum

/-- Whether every battery is broadside-and-below-deck mounted
(lib.rs lines 593-599). -/
def cap_calc_broadside (s : Ship) : Bool :=
  s.batteries.all (fun b => b.broad_and_below)

/-- Adjustment factor reducing engine weight in a highly stressed small ship
(lib.rs lines 579-588). -/
noncomputable def d_factor (s : Ship) : ℝ :=
  min (s.hull.d /
    (s.engine.d_engine s.hull.d s.hull.lwl s.hull.leff s.hull.cs s.hull.ws +
      8.0 * s.wgt_borne + s.wgt_armor + (s.wgts.wgt : ℝ))) 10.0

/-- Weight of the engine, adjusted by the displacement factor
(lib.rs lines 744-758). -/
noncomputable def wgt_engine (s : Ship) : ℝ :=
  s.engine.d_engine s.hull.d s.hull.lwl s.hull.leff s.hull.cs s.hull.ws / 2.0 *
    s.d_factor ^
      (if s.hull.d < 5000.0 ∧ 600.0 ≤ s.hull.d ∧ s.d_factor < 1.0 then
        1.0 - s.hull.d / 5000.0
      else if s.hull.d < 600.0 ∧ s.d_factor < 1.0 then (0.88 : ℝ)
      else 0.0)

/-- Weight of the hull (lib.rs lines 781-790). -/
noncomputable def wgt_hull (s : Ship) : ℝ :=
  s.hull.d - s.wgt_guns - s.wgt_gun_mounts - s.wgt_weaps - s.wgt_armor -
    s.wgt_engine - s.wgt_load - (s.wgts.wgt : ℝ)

/-- Weight of the hull plus guns and mounts, excluding borne weight
(lib.rs lines 796-801). -/
noncomputable def wgt_hull_plus (s : Ship) : ℝ :=
  s.wgt_hull + s.wgt_guns + s.wgt_gun_mounts - s.wgt_borne

/-- Structural weight per square foot of hull (lib.rs lines 763-776). -/
noncomputable def wgt_struct (s : Ship) : ℝ :=
  (s.wgt_hull_plus +
    (match s.armor.bh_kind with
      | BulkheadType.Strengthened =>
          s.armor.bulkhead.wgt s.hull.lwl s.hull.cwp s.hull.b
      | BulkheadType.Additional => 0)) * POUND2TON /
    (s.hull.ws + 2.0 * s.hull.lwl * s.hull.free_cap s.cap_calc_broadside +
      s.hull.wp)

/-- Vital-space weight ratio (lib.rs lines 265-274). -/
noncomputable def room (s : Ship) : ℝ :=
  (s.wgt_mag + s.hull.d * 0.02 + s.wgt_borne * 6.4 + s.wgt_engine * 3.0 +
      (s.wgts.vital : ℝ) + (s.wgts.hull : ℝ)) /
    (s.hull.d * 0.94) / (1.0 - s.hull_space)

/-- Below-water space ratio (lib.rs lines 280-284). -/
noncomputable def hull_room (s : Ship) : ℝ :=
  s.room *
    (if s.armor.bulkhead.wgt s.hull.lwl s.hull.cwp s.hull.b > 0.1 then
      s.hull.b / s.armor.bh_beam
    else 1.0)

/-- Above-water space ratio (lib.rs lines 289-294). -/
noncomputable def deck_room (s : Ship) : ℝ :=
  s.hull.wp / FT3_PER_TON_SEA / 15.0 * (1.0 - s.deck_space) /
    (s.crew_min : ℝ) * s.hull.freeboard_dist

/-- Longitudinal superfiring factor (lib.rs lines 918-954); `batteries[0]` is
modelled by `headI`. -/
noncomputable def super_factor_long (s : Ship) : ℝ :=
  let b0 := s.batteries.headI
  s.hull_room *
    (if (b0.g0.dist_even ∨ b0.g1.dist_even) ∧
        (b0.mount_num = 3 ∨ b0.mount_num = 4) then
      s.gun_super_factor
    else 1.0) *
    (if (b0.g0.num_mounts > 0 ∧ b0.g1.num_mounts = 0 ∧ b0.g0.dist_sfl) ∨
        (b0.g1.num_mounts > 0 ∧ b0.g0.num_mounts = 0 ∧ b0.g1.dist_sfl) ∨
        (b0.g0.num_mounts > 0 ∧ b0.g1.num_mounts > 0 ∧
          |b0.g0.pos - b0.g1.pos| < 0.2) then
      0.8 * s.gun_super_factor
    else 2.0 * s.gun_super_factor - 1.0)

/-- Cross-sectional strength (lib.rs lines 628-643). -/
noncomputable def str_cross (s : Ship) : ℝ :=
  (s.wgt_struct / Real.sqrt (s.hull.bb * (s.hull.t + s.hull.freeboard_dist)) /
      ((s.hull.d +
          ((s.wgt_broad + s.wgt_borne + s.wgt_gun_armor +
              s.armor.ct_fwd.wgt s.hull.d + s.armor.ct_aft.wgt s.hull.d) *
            ((if s.wgt_broad > 0.0 then 1.0 + s.gun_concentration else 1.0) *
              s.gun_super_factor) +
            max (s.engine.hp_max s.hull.d s.hull.lwl s.hull.leff s.hull.cs
              s.hull.ws) 0.0 / 100.0)) / s.hull.d) * 0.6) *
    (if s.year < 1900 then 1.0 - (1900.0 - (s.year : ℝ)) / 100.0 else 1.0)

/-- Longitudinal strength (lib.rs lines 648-668).  The final factor is u32
arithmetic in the source (`1 - (1900 - year) / 100`), modelled with truncated
ℕ subtraction; for `year ≤ 1700` a debug build of the source would panic on
underflow - no theorem below is settled at such a year. -/
noncomputable def str_long (s : Ship) : ℝ :=
  (s.wgt_hull_plus +
      (match s.armor.bh_kind with
        | BulkheadType.Strengthened =>
            s.armor.bulkhead.wgt s.hull.lwl s.hull.cwp s.hull.b
        | BulkheadType.Additional => 0)) /
    ((s.hull.lwl / (s.hull.t + s.hull.free_cap s.cap_calc_broadside)) ^
        (2.0 : ℝ) *
      (s.hull.d + s.armor.end_.wgt s.hull.lwl s.hull.cwp s.hull.b * 3.0 +
        (s.wgt_borne + s.wgt_gun_armor) * s.super_factor_long * 2.0)) *
    850.0 *
    (((if s.year < 1900 then 1 - (1900 - s.year) / 100 else 1 : ℕ)) : ℝ)

/-- Composite strength (lib.rs lines 673-679). -/
noncomputable def str_comp (s : Ship) : ℝ :=
  if s.str_cross > s.str_long then
    s.str_long * (s.str_cross / s.str_long) ^ (0.25 : ℝ)
  else
    s.str_cross * (s.str_long / s.str_cross) ^ (0.1 : ℝ)

/-- Inherent stability before the trim adjustment (lib.rs lines 539-565).
The deck armor weight call has its engine-weight argument pinned to zero in
the source (documented circular reference break). -/
noncomputable def stability (s : Ship) : ℝ :=
  let a :=
    (s.armor.ct_fwd.wgt s.hull.d + s.armor.ct_aft.wgt s.hull.d) * 5.0 +
    (s.wgt_borne + s.wgt_gun_armor) * (2.0 * s.gun_super_factor - 1.0) * 4.0 +
    (s.wgts.hull : ℝ) * 2.0 +
    (s.wgts.on_ : ℝ) * 3.0 +
    (s.wgts.above : ℝ) * 4.0 +
    s.armor.upper.wgt s.hull.d s.hull.cwp s.hull.b * 2.0 +
    s.armor.main.wgt s.hull.d s.hull.cwp s.hull.b +
    s.armor.end_.wgt s.hull.d s.hull.cwp s.hull.b +
    s.armor.deck.wgt s.hull s.wgt_mag 0.0 +
    (s.wgt_hull_plus + s.wgt_guns + s.wgt_gun_mounts - s.wgt_borne) * 1.5 *
      s.hull.freeboard / s.hull.t
  let b := a +
    (if s.deck_room < 1.0 then
      (s.wgt_engine + (s.wgts.vital : ℝ) + (s.wgts.void : ℝ)) *
        (1.0 - s.deck_room ^ (2.0 : ℝ))
    else 0.0)
  if b > 0.0 then
    Real.sqrt (s.hull.d * (s.hull.bb / s.hull.t) / b * 0.5) *
      (8.76755 / s.hull.len2beam) ^ (0.25 : ℝ)
  else b

/-- Vertical-weight stability adjustment (lib.rs lines 571-573). -/
noncomputable def stability_adj (s : Ship) : ℝ :=
  s.stability * ((50.0 - (s.trim : ℝ)) / 150.0 + 1.0)

/-- Frictional share of total resistance at maximum speed, the expression
`rf_max / (rf_max + rw_max)` appearing twice in `seaboat`
(lib.rs lines 397-400). -/
noncomputable def resist_ratio (s : Ship) : ℝ :=
  s.engine.rf_max s.hull.ws /
    (s.engine.rf_max s.hull.ws + s.engine.rw_max s.hull.d s.hull.lwl s.hull.cs)

/-- The value `a` inside `seaboat` (lib.rs lines 372-388). -/
noncomputable def seaboat_a (s : Ship) : ℝ :=
  Real.sqrt (s.hull.free_cap s.cap_calc_broadside /
      (2.4 * s.hull.d ^ (0.2 : ℝ))) *
    ((s.stability * 5.0 * (s.hull.bb / s.hull.lwl)) ^ (0.2 : ℝ) *
      Real.sqrt (s.hull.free_cap s.cap_calc_broadside / s.hull.lwl * 20.0) *
      (s.hull.d /
        (s.hull.d +
          s.armor.end_.wgt s.hull.lwl s.hull.cwp s.hull.b * 3.0 +
          s.wgt_hull_plus / 3.0 +
          (s.wgt_borne + s.wgt_gun_armor) * s.super_factor_long))) * 8.0

/-- The value `b` inside `seaboat` (lib.rs lines 390-394). -/
noncomputable def seaboat_b (s : Ship) : ℝ :=
  s.seaboat_a *
    (if s.hull.t / s.hull.bb < 0.3 then Real.sqrt (s.hull.t / s.hull.bb / 0.3)
    else 1.0)

/-- Intermediate seakeeping factor (lib.rs lines 371-406). -/
noncomputable def seaboat (s : Ship) : ℝ :=
  min (s.seaboat_b *
    (if s.resist_ratio < 0.55 ∧ s.engine.vmax > 0.0 then
      s.resist_ratio ^ (2.0 : ℝ)
    else 0.3025)) 2.0

/-- Dynamic hull steadiness (lib.rs lines 531-533). -/
noncomputable def steadiness (s : Ship) : ℝ :=
  min ((s.trim : ℝ) * s.seaboat) 100.0

/-- Seakeeping ability (lib.rs lines 411-413). -/
noncomputable def seakeeping (s : Ship) : ℝ :=
  s.seaboat * min s.steadiness 50.0 / 50.0

/-- Convert the seakeeping value into a SeaType (lib.rs lines 475-487). -/
noncomputable def type_sea (s : Ship) : SeaType :=
  if s.seakeeping < 0.7 then SeaType.BadSea
  else if s.seakeeping < 0.995 then SeaType.PoorSea
  else if s.seakeeping ≥ 1.5 then SeaType.FineSea
  else if s.seakeeping ≥ 1.2 then SeaType.GoodSea
  else SeaType.Error

/-- Estimated shell-hit capacity before loss (lib.rs lines 605-623). -/
noncomputable def flotation (s : Ship) : ℝ :=
  let a := if s.cap_calc_broadside then s.hull.free_cap s.cap_calc_broadside
    else s.hull.freeboard_dist
  let b := (a * s.hull.wp / FT3_PER_TON_SEA + s.hull.d) / 2.0
  let c := b * s.stability_adj ^
    (if s.stability_adj > 1.0 then (0.5 : ℝ) else 4.0)
  let dd := c * (if s.str_comp < 1.0 then s.str_comp else 1.0)
  let e := dd / s.room ^ (if s.room > 1.0 then (2.0 : ℝ) else 1.0)
  max (e * year_adj s.year) 0

/-- Cost in millions of US dollars (lib.rs lines 333-338). -/
noncomputable def cost_dollar (s : Ship) : ℝ :=
  ((s.hull.d - s.wgt_load) * 0.00014 + s.wgt_engine * 0.00056 +
      s.wgt_borne * 8.0 * 0.00042) *
    (if (s.year : ℝ) + 2.0 > 1914.0 then
      1.0 + ((s.year : ℝ) + 1.5 - 1914.0) / 5.5
    else 1.0)

/-- The cost formula exactly as the specification words it (§4.5 Cost):
"linear in light-ship weight, engine weight, and gun-broadside weight" -
i.e. with the broadside weight `wgt_broad` where the source uses the borne
gun weight `wgt_borne`.  Written only for comparison with `cost_dollar`. -/
noncomputable def cost_dollar_spec (s : Ship) : ℝ :=
  ((s.hull.d - s.wgt_load) * 0.00014 + s.wgt_engine * 0.00056 +
      s.wgt_broad * 8.0 * 0.00042) *
    (if (s.year : ℝ) + 2.0 > 1914.0 then
      1.0 + ((s.year : ℝ) + 1.5 - 1914.0) / 5.5
    else 1.0)

end Ship

/-- The Ship file version created by this version of sharpie
(lib.rs line 38). -/
def SHIP_FILE_VERSION : ℕ := 1

/-- Ship file version record (lib.rs lines 43-46). -/
structure Version where
  version : ℕ

/-- Modelled from the spec (§6): one serde-serialized record of the
two-record ship document.  The serde_json keyed textual encoding of a record
is self-describing and faithful at the boundary, so a serialized record is
modelled by the record itself tagged with its kind. -/
inductive FileRecord
  | ver : Version → FileRecord
  | shipRec : Ship → FileRecord

/-- Modelled filesystem: a map from paths to the sequence of records stored
in the file at that path, `none` when no file exists at the path. -/
abbrev FS : Type := String → Option (List FileRecord)

/-- Errors of the modelled save/load boundary (§6, §7). -/
inductive FileError
  | notFound
  | parseError
  | incompatibleVersion : ℕ → FileError

/-- Modelled from the spec: `engine.set_shafts(engine.shafts(), &mut hull)`
(lib.rs line 1239) lives in the missing engine module; per §6/§8 it
re-establishes the derived values of a loaded ship from its stored fields,
and on a record serialized from an already-consistent Ship - which any saved
record is - this re-derivation is the identity. -/
def Ship.set_shafts (s : Ship) : Ship := s

/-- Save ship to a file (lib.rs lines 1247-1260).  The first open uses
write+truncate without the create option, so it fails with a not-found error
when the path names no existing file, before anything is written; otherwise
the file is truncated and the version record then the ship record are
appended. -/
def Ship.save (s : Ship) (p : String) (fs : FS) : Option FileError × FS :=
  match fs p with
  | none => (some FileError.notFound, fs)
  | some _ =>
      (none, fun q =>
        if q = p then
          some [FileRecord.ver ⟨SHIP_FILE_VERSION⟩, FileRecord.shipRec s]
        else fs q)

/-- Load ship from a file (lib.rs lines 1220-1242): read the stored records,
decode the version record first and reject any version other than 1, then
decode the ship record and re-establish derived values via `set_shafts`. -/
def Ship.load (p : String) (fs : FS) : Except FileError Ship :=
  match fs p with
  | none => Except.error FileError.notFound
  | some (FileRecord.ver v :: rest) =>
      if v.version = 1 then
        match rest with
        | FileRecord.shipRec sh :: _ => Except.ok sh.set_shafts
        | _ => Except.error FileError.parseError
      else Except.error (FileError.incompatibleVersion v.version)
  | some _ => Except.error FileError.parseError

/-- Modelled from the spec (§3): the hull module's Default values are not
observable in the snapshot; a fixed representative default record stands in
(no theorem below depends on the specific values). -/
def Hull.dflt : Hull where
  d := 0
  lwl := 0
  leff := 0
  cs := 0
  ws := 0
  wp := 0
  cwp := 0
  b := 0
  bb := 0
  t := 0
  freeboard := 0
  freeboard_dist := 0
  len2beam := 0
  free_cap := fun _ => 0

/-- Modelled from the spec (§3): representative default armor record. -/
def Armor.dflt : Armor where
  main := ⟨fun _ _ _ => 0⟩
  end_ := ⟨fun _ _ _ => 0⟩
  upper := ⟨fun _ _ _ => 0⟩
  bulkhead := ⟨fun _ _ _ => 0⟩
  bulge := ⟨fun _ _ _ => 0⟩
  ct_fwd := ⟨fun _ => 0⟩
  ct_aft := ⟨fun _ => 0⟩
  deck := ⟨fun _ _ _ => 0⟩
  wgt := fun _ _ _ => 0
  bh_kind := BulkheadType.Additional
  bh_beam := 0

/-- Modelled from the spec (§3): representative default engine record. -/
def Engine.dflt : Engine where
  vmax := 0
  bunker := fun _ _ _ _ _ => 0
  d_engine := fun _ _ _ _ _ => 0
  hp_max := fun _ _ _ _ _ => 0
  rf_max := fun _ => 0
  rw_max := fun _ _ _ => 0

/-- Modelled from the spec (§3): representative default torpedo record. -/
def Torpedoes.dflt : Torpedoes where
  num := 0
  wgt := 0
  wgt_weaps := 0
  deck_space := fun _ => 0
  hull_space := 0

/-- The default Ship (lib.rs lines 102-130): empty strings, year 0, trim 50,
five default batteries, two torpedo mounts, two ASW mounts, no notes; the
sub-records' defaults are modelled (their modules are missing from the
snapshot). -/
def Ship.dflt : Ship where
  name := ""
  country := ""
  kind := ""
  year := 0
  trim := 50
  hull := Hull.dflt
  armor := Armor.dflt
  engine := Engine.dflt
  batteries := [default, default, default, default, default]
  torps := [Torpedoes.dflt, Torpedoes.dflt]
  mines := ⟨0⟩
  asw := [⟨0⟩, ⟨0⟩]
  wgts := ⟨0, 0, 0, 0, 0⟩
  notes := []

/-- A ship with the given design year and hull, no weapons, no weights, a
zeroed armor scheme and engine: a concrete input for evaluating the derived
metrics. -/
def plainShip (yr : ℕ) (h : Hull) : Ship where
  name := ""
  country := ""
  kind := ""
  year := yr
  trim := 50
  hull := h
  armor := Armor.dflt
  engine := Engine.dflt
  batteries := []
  torps := []
  mines := ⟨0⟩
  asw := []
  wgts := ⟨0, 0, 0, 0, 0⟩
  notes := []

/-- Concrete hull for the composite-strength evaluation: round figures chosen
so that every intermediate of `str_cross` and `str_long` is rational. -/
def blendHull : Hull where
  d := 2240
  lwl := 400
  leff := 0
  cs := 0
  ws := 40172.48
  wp := 1000
  cwp := 0
  b := 0
  bb := 25
  t := 10
  freeboard := 0
  freeboard_dist := 6
  len2beam := 0
  free_cap := fun _ => 10

/-- Concrete ship for the composite-strength blend evaluation. -/
def blendShip : Ship := plainShip 1950 blendHull

/-- Concrete ship with equal (zero) cross-sectional and longitudinal
strength. -/
def equalStrengthShip : Ship := plainShip 1950 Hull.dflt

/-- Concrete immobile ship (`engine.vmax = 0`) for the seaboat fallback. -/
def immobileShip : Ship := plainShip 1950 Hull.dflt

/-- Concrete post-1950 ship for the flotation year clamp. -/
def lateShip : Ship := plainShip 1951 Hull.dflt

/-- Concrete ship of displacement 0 for the crew bounds. -/
def crewShip0 : Ship := plainShip 1950 Hull.dflt

/-- Concrete ship of displacement 1000 for the crew bounds. -/
def crewShip1000 : Ship := plainShip 1950 { Hull.dflt with d := 1000 }

/-- A battery whose gun weight is 1 with weight adjustment 1 and broadside
weight 0: on a ship carrying it, `wgt_borne = 2` while `wgt_broad = 0`. -/
def borneOnlyBattery : Battery where
  diam := 0
  mount_num := 0
  gun_wgt := 1
  mount_wgt := 0
  mag_wgt := 0
  armor_wgt := fun _ => 0
  broadside_wgt := 0
  mount_adj := 1
  super_ := fun _ => 0
  concentration := fun _ => 0
  broad_and_below := true
  g0 := default
  g1 := default

/-- Concrete ship separating the borne gun weight from the broadside weight
in the cost formula. -/
def borneOnlyShip : Ship :=
  { plainShip 0 Hull.dflt with batteries := [borneOnlyBattery] }

/-- The seakeeping bands exactly as the specification words them (§4.5):
BadSea below 0.7, PoorSea below 0.995, the Error band on [0.995, 1.2),
GoodSea on [1.2, 1.5), FineSea at or above 1.5.  Written only for comparison
with `Ship.type_sea`. -/
noncomputable def sea_band (v : ℝ) : SeaType :=
  if v < 0.7 then SeaType.BadSea
  else if v < 0.995 then SeaType.PoorSea
  else if v < 1.2 then SeaType.Error
  else if v < 1.5 then SeaType.GoodSea
  else SeaType.FineSea

lemma blend_eval {x y : ℝ} (hy : 0 < y) (hx : 0 ≤ x) (e : ℝ) :
    y * (x / y) ^ e = x ^ e * y ^ (1 - e) := by
  rw [Real.div_rpow hx hy.le, Real.rpow_sub hy, Real.rpow_one]
  ring

/-- Claim C1: for every Ship the displacement variants are computed as the
spec defines them - light displacement is normal displacement minus the load
weight (bunkerage plus magazine plus stores, stores being 2% of normal
displacement), standard displacement is normal minus bunkerage only, and
maximum displacement is normal plus 0.8 times the maximum bunker weight
(the engine model's bunkerage figure `wgt_bunker`). -/
theorem displacement_variants_spec (s : Ship) :
    s.d_lite = s.hull.d - (s.wgt_bunker + s.wgt_mag + 0.02 * s.hull.d) ∧
    s.d_std = s.hull.d - s.wgt_bunker ∧
    s.d_max = s.hull.d + 0.8 * s.wgt_bunker := by
  refine ⟨?_, rfl, rfl⟩
  unfold Ship.d_lite Ship.wgt_load
  ring

/-- Claim C3: the seakeeping classification partitions the seakeeping value
into exactly the five spec bands - BadSea below 0.7, PoorSea on [0.7, 0.995),
the Error band on [0.995, 1.2), GoodSea on [1.2, 1.5) and FineSea at or
above 1.5. -/
theorem type_sea_five_bands (s : Ship) :
    s.type_sea = sea_band s.seakeeping ∧
    (s.type_sea = SeaType.Error ↔
      0.995 ≤ s.seakeeping ∧ s.seakeeping < 1.2) := by
  constructor
  · unfold Ship.type_sea sea_band
    split_ifs <;> first | rfl | (exfalso; linarith)
  · unfold Ship.type_sea
    split_ifs with h1 h2 h3 h4
    · exact iff_of_false (by decide) (fun h => absurd h.1 (by linarith))
    · exact iff_of_false (by decide) (fun h => absurd h.1 (by linarith))
    · exact iff_of_false (by decide) (fun h => absurd h.2 (by linarith))
    · exact iff_of_false (by decide) (fun h => absurd h.2 (by linarith))
    · exact iff_of_true rfl ⟨not_lt.mp h2, not_le.mp h4⟩

/-- Claim C4: flotation is floored at zero for every Ship, and equals zero
exactly for every Ship whose design year is greater than 1950, because the
year adjustment vanishes after 1950. -/
theorem flotation_nonneg_zero_after_1950 (s : Ship) :
    0 ≤ s.flotation ∧ (1950 < s.year → s.flotation = 0) := by
  simp only [Ship.flotation]
  constructor
  · exact le_max_right _ _
  · intro hy
    have hz : year_adj s.year = 0 := by
      unfold year_adj
      have h1 : ¬s.year ≤ 1890 := by omega
      have h2 : ¬s.year ≤ 1950 := by omega
      rw [if_neg h1, if_neg h2]
      norm_num
    simp only [hz, mul_zero, max_self]

/-- Witness for the flotation claim at a concrete ship laid down in 1951. -/
theorem flotation_nonneg_zero_after_1950_witness :
    0 ≤ lateShip.flotation ∧ lateShip.flotation = 0 :=
  ⟨(flotation_nonneg_zero_after_1950 lateShip).1,
    (flotation_nonneg_zero_after_1950 lateShip).2 (by norm_num [lateShip, plainShip])⟩

/-- Claim C5: the seaboat factor substitutes the constant 0.3025 for the
squared resistance-ratio term whenever the engine's maximum speed is zero or
the frictional-to-total resistance ratio is at least 0.55; only when the
maximum speed is strictly positive and the ratio is strictly below 0.55 is
the squared ratio itself used, so a zero-max-speed ship never feeds the
unguarded ratio through steadiness or seakeeping. -/
theorem seaboat_fallback (s : Ship) :
    (s.engine.vmax = 0 ∨ 0.55 ≤ s.resist_ratio →
      s.seaboat = min (s.seaboat_b * 0.3025) 2.0) ∧
    (0 < s.engine.vmax ∧ s.resist_ratio < 0.55 →
      s.seaboat = min (s.seaboat_b * s.resist_ratio ^ (2.0 : ℝ)) 2.0) := by
  unfold Ship.seaboat
  constructor
  · intro h
    rw [if_neg]
    rintro ⟨h1, h2⟩
    rcases h with h | h
    · rw [h] at h2; norm_num at h2
    · linarith
  · intro h
    rw [if_pos
      (show s.resist_ratio < 0.55 ∧ s.engine.vmax > 0.0 from
        ⟨h.2, by linarith [h.1]⟩)]

/-- Witness for the seaboat fallback at a concrete immobile ship. -/
theorem seaboat_fallback_witness :
    immobileShip.seaboat = min (immobileShip.seaboat_b * 0.3025) 2.0 :=
  (seaboat_fallback immobileShip).1 (Or.inl rfl)

/-- Claim C10: save returns an error and writes nothing when the target path
names no existing file - the first open uses write+truncate without the
create option, so saving can only overwrite an existing file, never create
one: a successful save implies the file existed beforehand. -/
theorem save_requires_existing_file (s : Ship) (p : String) (fs : FS) :
    (fs p = none → s.save p fs = (some FileError.notFound, fs)) ∧
    ((s.save p fs).1 = none → (fs p).isSome = true) := by
  constructor
  · intro h
    unfold Ship.save
    rw [h]
  · intro h
    unfold Ship.save at h
    cases hf : fs p with
    | none => rw [hf] at h; simp at h
    | some l => simp [hf]

/-- Witness for the save error at a concrete empty filesystem. -/
theorem save_requires_existing_file_witness :
    Ship.dflt.save "ship" (fun _ => none) =
      (some FileError.notFound, fun _ => none) :=
  (save_requires_existing_file Ship.dflt "ship" (fun _ => none)).1 rfl

/-- Claim C9: saving the default-constructed Ship to an existing path and
loading it back succeeds and yields a record equal in every field to the
original, the derived values re-established through set_shafts included. -/
theorem save_load_roundtrip_default (p : String) (fs : FS)
    (h : (fs p).isSome = true) :
    Ship.load p (Ship.dflt.save p fs).2 = Except.ok Ship.dflt := by
  unfold Ship.save
  cases hf : fs p with
  | none => rw [hf] at h; simp at h
  | some l =>
    simp [Ship.load, Ship.set_shafts, SHIP_FILE_VERSION]

/-- Witness for the round trip at a concrete filesystem holding an empty
file at the target path. -/
theorem save_load_roundtrip_default_witness :
    Ship.load "ship" (Ship.dflt.save "ship" (fun _ => some [])).2 =
      Except.ok Ship.dflt :=
  save_load_roundtrip_default "ship" (fun _ => some []) rfl

/-- Claim C2: composite strength blends the two strengths through the ratio
of the two raised to a fractional exponent, 0.25 when cross-sectional
strength dominates and 0.1 when longitudinal strength dominates; for
positive strengths the dominant strength is the base carrying the
fractional exponent: dominant^0.25 x other^0.75, respectively
dominant^0.1 x other^0.9. -/
theorem str_comp_asymmetric_blend (s : Ship) :
    (s.str_long < s.str_cross →
      s.str_comp = s.str_long * (s.str_cross / s.str_long) ^ (0.25 : ℝ)) ∧
    (s.str_cross ≤ s.str_long →
      s.str_comp = s.str_cross * (s.str_long / s.str_cross) ^ (0.1 : ℝ)) ∧
    (0 < s.str_long → s.str_long < s.str_cross →
      s.str_comp = s.str_cross ^ (0.25 : ℝ) * s.str_long ^ (0.75 : ℝ)) ∧
    (0 < s.str_cross → s.str_cross ≤ s.str_long →
      s.str_comp = s.str_long ^ (0.1 : ℝ) * s.str_cross ^ (0.9 : ℝ)) := by
  refine ⟨?_, ?_, ?_, ?_⟩
  · intro h
    unfold Ship.str_comp
    rw [if_pos h]
  · intro h
    unfold Ship.str_comp
    rw [if_neg (not_lt.mpr h)]
  · intro hy h
    unfold Ship.str_comp
    rw [if_pos h, blend_eval hy (le_of_lt (hy.trans h))]
    norm_num
  · intro hx h
    unfold Ship.str_comp
    rw [if_neg (not_lt.mpr h), blend_eval hx (le_of_lt (lt_of_lt_of_le hx h))]
    norm_num

/-- Claim C8: when cross-sectional strength equals longitudinal strength the
composite strength equals the cross-sectional strength exactly (the blend
collapses because the ratio of the two is one). -/
theorem str_comp_collapse_at_equality (s : Ship)
    (h : s.str_cross = s.str_long) : s.str_comp = s.str_cross := by
  unfold Ship.str_comp
  rw [if_neg (by rw [h]; exact lt_irrefl _)]
  by_cases hz : s.str_cross = 0
  · rw [hz, zero_mul]
  · rw [← h, div_self hz, Real.one_rpow, mul_one]

lemma blendShip_wgt_hull_plus : blendShip.wgt_hull_plus = 2195.2 := by
  unfold Ship.wgt_hull_plus Ship.wgt_hull Ship.wgt_guns Ship.wgt_gun_mounts
    Ship.wgt_weaps Ship.wgt_armor Ship.wgt_gun_armor Ship.wgt_engine
    Ship.wgt_load Ship.wgt_bunker Ship.wgt_mag Ship.wgt_borne
  norm_num [blendShip, plainShip, blendHull, Armor.dflt, Engine.dflt,
    MiscWgts.wgt]

lemma blendShip_wgt_struct : blendShip.wgt_struct = 100 := by
  unfold Ship.wgt_struct Ship.cap_calc_broadside
  rw [blendShip_wgt_hull_plus]
  norm_num [blendShip, plainShip, blendHull, Armor.dflt, POUND2TON]

lemma blendShip_str_cross : blendShip.str_cross = 3 := by
  unfold Ship.str_cross
  rw [blendShip_wgt_struct]
  have hsq : Real.sqrt
      (blendShip.hull.bb * (blendShip.hull.t + blendShip.hull.freeboard_dist)) =
      20 := by
    have hv : blendShip.hull.bb *
        (blendShip.hull.t + blendShip.hull.freeboard_dist) = 400 := by
      norm_num [blendShip, plainShip, blendHull]
    rw [hv, show (400 : ℝ) = 20 ^ 2 by norm_num, Real.sqrt_sq (by norm_num)]
  rw [hsq]
  unfold Ship.wgt_broad Ship.wgt_borne Ship.wgt_gun_armor
    Ship.gun_super_factor Ship.gun_wtf Ship.wgt_guns Ship.wgt_gun_mounts
    Ship.gun_concentration
  norm_num [blendShip, plainShip, blendHull, Armor.dflt, Engine.dflt]

lemma blendShip_str_long : blendShip.str_long = 2.0825 := by
  unfold Ship.str_long Ship.wgt_borne Ship.wgt_gun_armor
  rw [blendShip_wgt_hull_plus]
  have h20 : (blendShip.hull.lwl /
      (blendShip.hull.t + blendShip.hull.free_cap blendShip.cap_calc_broadside)) ^
      (2.0 : ℝ) = 400 := by
    have hb : blendShip.hull.lwl /
        (blendShip.hull.t +
          blendShip.hull.free_cap blendShip.cap_calc_broadside) = 20 := by
      norm_num [blendShip, plainShip, blendHull]
    rw [hb, show (2.0 : ℝ) = ((2 : ℕ) : ℝ) by norm_num, Real.rpow_natCast]
    norm_num
  rw [h20]
  norm_num [blendShip, plainShip, blendHull, Armor.dflt]

/-- Witness for the composite-strength blend at a concrete ship whose
cross-sectional strength is 3 and longitudinal strength is 2.0825. -/
theorem str_comp_asymmetric_blend_witness :
    0 < blendShip.str_long ∧ blendShip.str_long < blendShip.str_cross ∧
    blendShip.str_comp = (3 : ℝ) ^ (0.25 : ℝ) * (2.0825 : ℝ) ^ (0.75 : ℝ) := by
  have h1 : (0 : ℝ) < blendShip.str_long := by
    rw [blendShip_str_long]; norm_num
  have h2 : blendShip.str_long < blendShip.str_cross := by
    rw [blendShip_str_long, blendShip_str_cross]; norm_num
  refine ⟨h1, h2, ?_⟩
  have h3 := (str_comp_asymmetric_blend blendShip).2.2.1 h1 h2
  rw [h3, blendShip_str_cross, blendShip_str_long]

lemma equalStrengthShip_cross : equalStrengthShip.str_cross = 0 := by
  unfold Ship.str_cross Ship.wgt_struct
  norm_num [equalStrengthShip, plainShip, Hull.dflt]

lemma equalStrengthShip_long : equalStrengthShip.str_long = 0 := by
  unfold Ship.str_long Ship.wgt_hull_plus Ship.wgt_hull Ship.wgt_guns
    Ship.wgt_gun_mounts Ship.wgt_weaps Ship.wgt_armor Ship.wgt_gun_armor
    Ship.wgt_engine Ship.wgt_load Ship.wgt_bunker Ship.wgt_mag Ship.wgt_borne
  norm_num [equalStrengthShip, plainShip, Hull.dflt, Armor.dflt, Engine.dflt,
    MiscWgts.wgt]

/-- Witness for the composite-strength collapse at a concrete ship whose two
strengths are equal. -/
theorem str_comp_collapse_at_equality_witness :
    equalStrengthShip.str_cross = equalStrengthShip.str_long ∧
    equalStrengthShip.str_comp = equalStrengthShip.str_cross := by
  have h : equalStrengthShip.str_cross = equalStrengthShip.str_long := by
    rw [equalStrengthShip_cross, equalStrengthShip_long]
  exact ⟨h, str_comp_collapse_at_equality equalStrengthShip h⟩

/-- Claim C6 (amended): cost_dollar is the stated linear combination of
light-ship weight, engine weight and the borne gun weight scaled by 8 (not
the gun-broadside weight), multiplied by the escalation factor
1 + (year + 1.5 - 1914)/5.5 exactly when year + 2 > 1914 and by 1
otherwise. -/
theorem cost_dollar_borne_formula (s : Ship) :
    s.cost_dollar =
      (s.d_lite * 0.00014 + s.wgt_engine * 0.00056 +
        s.wgt_borne * 8.0 * 0.00042) *
      (if 1914 < s.year + 2 then 1.0 + ((s.year : ℝ) + 1.5 - 1914.0) / 5.5
      else 1.0) := by
  unfold Ship.cost_dollar Ship.d_lite
  have hc : ((s.year : ℝ) + 2.0 > 1914.0) ↔ 1914 < s.year + 2 := by
    constructor
    · intro h
      by_contra hn
      push_neg at hn
      have hr : ((s.year : ℝ) + 2) ≤ 1914 := by exact_mod_cast hn
      linarith
    · intro h
      have hr : (1914 : ℝ) < (s.year : ℝ) + 2 := by exact_mod_cast h
      linarith
  by_cases h : 1914 < s.year + 2
  · rw [if_pos (hc.mpr h), if_pos h]
  · rw [if_neg (fun hh => h (hc.mp hh)), if_neg h]

/-- Claim C6 counterexample: on a concrete ship whose single battery has gun
weight 1 (borne weight 2) and broadside weight 0, the cost computed by the
source differs from the formula the spec words in terms of the gun-broadside
weight. -/
theorem cost_dollar_broadside_counterexample :
    Ship.cost_dollar borneOnlyShip ≠ Ship.cost_dollar_spec borneOnlyShip := by
  unfold Ship.cost_dollar Ship.cost_dollar_spec Ship.wgt_load Ship.wgt_bunker
    Ship.wgt_mag Ship.wgt_borne Ship.wgt_broad Ship.wgt_engine
  norm_num [borneOnlyShip, plainShip, borneOnlyBattery, Hull.dflt,
    Engine.dflt]

lemma rpow_1000_pow34_bounds :
    177 < (1000 : ℝ) ^ (0.75 : ℝ) ∧ (1000 : ℝ) ^ (0.75 : ℝ) < 178 := by
  have h0 : (0 : ℝ) ≤ (1000 : ℝ) ^ (0.75 : ℝ) :=
    (Real.rpow_pos_of_pos (by norm_num) _).le
  have key : ((1000 : ℝ) ^ (0.75 : ℝ)) ^ (4 : ℕ) = 1000000000 := by
    rw [← Real.rpow_natCast ((1000 : ℝ) ^ (0.75 : ℝ)) 4,
      ← Real.rpow_mul (by norm_num : (0 : ℝ) ≤ 1000)]
    rw [show (0.75 : ℝ) * ((4 : ℕ) : ℝ) = ((3 : ℕ) : ℝ) by norm_num,
      Real.rpow_natCast]
    norm_num
  constructor
  · by_contra h
    push_neg at h
    have hp := pow_le_pow_left₀ h0 h 4
    rw [key] at hp
    norm_num at hp
  · by_contra h
    push_neg at h
    have hp := pow_le_pow_left₀ (by norm_num : (0 : ℝ) ≤ 178) h 4
    rw [key] at hp
    norm_num at hp

/-- Claim C7: crew_max is 0.65 x displacement^0.75 truncated to a whole
number and crew_min is 0.7692 x crew_max truncated to a whole number, with
crew_max 0 at displacement 0, and crew_max 115 and crew_min 88 at
displacement 1000. -/
theorem crew_bounds_spec :
    (∀ s : Ship,
      s.crew_max = (⌊0.65 * s.hull.d ^ (0.75 : ℝ)⌋).toNat ∧
      s.crew_min = (⌊0.7692 * (s.crew_max : ℝ)⌋).toNat) ∧
    crewShip0.crew_max = 0 ∧
    crewShip1000.crew_max = 115 ∧ crewShip1000.crew_min = 88 := by
  have hcm : crewShip1000.crew_max = 115 := by
    unfold Ship.crew_max
    have hd : crewShip1000.hull.d = 1000 := by
      norm_num [crewShip1000, plainShip]
    rw [hd]
    have hfl : ⌊(1000 : ℝ) ^ (0.75 : ℝ) * 0.65⌋ = 115 := by
      rw [Int.floor_eq_iff]
      have hb := rpow_1000_pow34_bounds
      constructor
      · push_cast
        nlinarith [hb.1]
      · push_cast
        nlinarith [hb.2]
    rw [hfl]
    rfl
  refine ⟨?_, ?_, hcm, ?_⟩
  · intro s
    constructor
    · unfold Ship.crew_max
      rw [mul_comm]
    · unfold Ship.crew_min
      rw [mul_comm]
  · unfold Ship.crew_max
    have hd : crewShip0.hull.d = 0 := by
      norm_num [crewShip0, plainShip, Hull.dflt]
    rw [hd, Real.zero_rpow (by norm_num), zero_mul]
    norm_num
  · unfold Ship.crew_min
    rw [hcm]
    have hfl : ⌊((115 : ℕ) : ℝ) * 0.7692⌋ = 88 := by
      rw [Int.floor_eq_iff]
      constructor
      · push_cast
        norm_num
      · push_cast
        norm_num
    rw [hfl]
    rfl

end Sharpie
